import Mathlib

/-!
Shallow embedding of the data-loading and aggregation core of the
polar-plant dashboard (`main.py`): the school registry `EC_MAPPING`, the
environment CSV loader `load_and_preprocess_env_data`, the growth
workbook loader `load_and_preprocess_growth_data`, the pandas
groupby/mean/count aggregation they invoke, and the raw-data export
paths, together with theorems settling the specification claims.

Modelling conventions:
 - numeric cell values are rationals; a pandas `NaN`/`NaT` cell is `Option.none`;
 - the best-effort parsers `pd.to_datetime(..., errors='coerce')` and
   `pd.to_numeric(..., errors='coerce')` are abstracted as functions
   `String → Option ℚ` passed to the loaders (their only property used by
   the code is "unparseable ↦ null"); concrete instances are used in
   witnesses;
 - a pandas `groupby(key).agg(...)` with the default `sort=True` produces
   one row per distinct key, keys in ascending order (`groupKeys`), each
   statistic computed over the group's rows in input order;
 - fallible steps (`pd.read_csv`, `df.columns = [...]`, `pd.ExcelFile`,
   `xls.parse`) return `Except String`.
-/

namespace Polar

/-- Test whether the first list is an initial segment of the second
(structural helper for substring search). -/
def leadsWith : List Char → List Char → Bool
  | [], _ => true
  | _ :: _, [] => false
  | a :: as, b :: bs => a == b && leadsWith as bs

/-- Contiguous containment of `pat` in `hay` (structural helper). -/
def containsChars (hay pat : List Char) : Bool :=
  match hay with
  | [] => pat.isEmpty
  | _ :: t => leadsWith pat hay || containsChars t pat

/-- Python substring test `pat in s` (used for the `'환경데이터' in name`
and `'생육결과데이터' in name` filename checks). -/
def containsSub (s pat : String) : Bool :=
  containsChars s.data pat.data

/-- Python `str.split(sep)` for a one-character separator: splits at every
occurrence and keeps empty pieces. -/
def splitChars (sep : Char) : List Char → List (List Char)
  | [] => [[]]
  | c :: cs =>
    let rest := splitChars sep cs
    if c == sep then [] :: rest
    else
      match rest with
      | [] => [[c]]
      | h :: t => (c :: h) :: t

/-- Model of `pathlib.Path(...).suffix`: the extension of the filename
including the leading dot, `""` when the name has no dot. -/
def pathSuffix (name : String) : String :=
  match splitChars '.' name.data with
  | [] => ""
  | [_] => ""
  | parts => "." ++ String.mk (parts.getLastD [])

/-- Model of `str.lower()` applied to an extension (`path.suffix.lower()`). -/
def lowerStr (s : String) : String :=
  String.mk (s.data.map Char.toLower)

/-- The static school registry `EC_MAPPING`: school name, EC target
(`EC_goal`), display color. -/
def EC_MAPPING : List (String × ℚ × String) :=
  [("송도고", (1 : ℚ), "#1f77b4"),
   ("하늘고", (2 : ℚ), "#2ca02c"),
   ("아라고", (4 : ℚ), "#ff7f0e"),
   ("동산고", (8 : ℚ), "#d62728")]

/-- Registry lookup `EC_MAPPING[school]['EC_goal']`, `none` when the school
is not a key (`school_name not in EC_MAPPING`). -/
def ecGoalOf (s : String) : Option ℚ :=
  (EC_MAPPING.find? (fun e => e.1 == s)).map (fun e => e.2.1)

/-- Accumulator step of the pandas `mean` statistic: running sum of the
present values and running count of the present values; a null cell
leaves both untouched. -/
def meanAcc (acc : ℚ × ℕ) (x : Option ℚ) : ℚ × ℕ :=
  match x with
  | some v => (acc.1 + v, acc.2 + 1)
  | none => acc

/-- Pandas `mean` aggregation over one column of a group: nulls are
skipped (`skipna`); an empty or all-null column yields `NaN` (`none`). -/
def meanOpt (xs : List (Option ℚ)) : Option ℚ :=
  let p := xs.foldl meanAcc ((0 : ℚ), (0 : ℕ))
  if p.2 = 0 then none else some (p.1 / (p.2 : ℚ))

/-- Modelled from the spec's words (for comparison with `meanOpt`): the
arithmetic mean of the non-missing values of a column, excluding missing
values from both the sum and the divisor. -/
def specMean (xs : List (Option ℚ)) : Option ℚ :=
  let present := xs.filterMap id
  if present.length = 0 then none else some (present.sum / (present.length : ℚ))

/-- Group keys produced by `DataFrame.groupby(key)` with the default
`sort=True`: the distinct key values in ascending order. -/
def groupKeys {κ : Type} [LinearOrder κ] [DecidableEq κ] (ks : List κ) : List κ :=
  List.insertionSort (· ≤ ·) ks.dedup

/-- Modelled from the spec's words (used only to refute the ordering
claim): the group keys in order of first occurrence in the input. -/
def firstOccurKeys {κ : Type} [DecidableEq κ] (ks : List κ) : List κ :=
  ks.foldl (fun acc k => if k ∈ acc then acc else acc ++ [k]) []

/-- Rectangular parsed frame with `ncols` columns; `A` is the cell type
(`String` for CSV cells, `XCell` for spreadsheet cells). -/
structure RawFrame (A : Type) where
  ncols : ℕ
  rows : List (List A)
deriving DecidableEq

/-- Positional column renaming `df.columns = [five names]`: succeeds only
when the parsed frame has exactly five columns, otherwise raises
`ValueError: Length mismatch` (caught by the per-file handler). -/
def setColumns5 {A : Type} (raw : RawFrame A) : Except String (RawFrame A) :=
  if raw.ncols = 5 then .ok raw else .error "Length mismatch"

/-- Unified environment record: row of `env_df`. -/
structure EnvRow where
  time : Option ℚ
  temperature : Option ℚ
  humidity : Option ℚ
  ph : Option ℚ
  ec : Option ℚ
  school : String
  ec_goal : ℚ
deriving DecidableEq

/-- Intermediate state of an environment row after `pd.to_datetime` on the
`time` column but before `pd.to_numeric` on the numeric columns. -/
structure EnvStage1 where
  time : Option ℚ
  temperature : String
  humidity : String
  ph : String
  ec : String
deriving DecidableEq

/-- Per-file body of the environment loader (`main.py` lines 63-75): rename
the five columns positionally, parse the `time` column with
`pd.to_datetime(errors='coerce')`, drop rows whose timestamp failed to
parse (`dropna(subset=['time'])`), coerce the four numeric columns with
`pd.to_numeric(errors='coerce')`, then tag every row with the school and
its registry EC target. -/
def processEnvFrame (pt pn : String → Option ℚ) (school : String) (g : ℚ)
    (raw : RawFrame String) : Except String (List EnvRow) := do
  let raw5 ← setColumns5 raw
  let stage1 := raw5.rows.map (fun r =>
    EnvStage1.mk (pt (r.getD 0 "")) (r.getD 1 "") (r.getD 2 "") (r.getD 3 "") (r.getD 4 ""))
  let stage2 := stage1.filter (fun r => r.time.isSome)
  pure (stage2.map (fun r =>
    { time := r.time, temperature := pn r.temperature, humidity := pn r.humidity,
      ph := pn r.ph, ec := pn r.ec, school := school, ec_goal := g }))

deriving instance DecidableEq for Except

/-- Directory entry as seen by the environment loader: the (NFC-normalized)
filename, whether it is a regular file, and the outcome of reading it as a
CSV (`pd.read_csv`), when attempted. -/
structure CsvFile where
  name : String
  isFile : Bool
  content : Except String (RawFrame String)
deriving DecidableEq

/-- Filename filter of the environment loader: a regular file with a
`.csv` extension (case-insensitive) whose normalized name contains the
token `환경데이터`. -/
def envCsvMatch (f : CsvFile) : Bool :=
  f.isFile && (lowerStr (pathSuffix f.name) == ".csv") && containsSub f.name "환경데이터"

/-- School-name extraction `normalized_name.split('_')[0]`. -/
def envSchoolOf (name : String) : String :=
  String.mk ((splitChars '_' name.data).headD name.data)

/-- Contribution of one directory entry to the environment loader:
`none` when the entry is skipped (non-matching name, or school not in the
registry); `some (.ok rows)` when the file loads; `some (.error msg)`
when the per-file `try/except` catches an error (message names the file,
as in `st.error(f"환경 데이터 파일 로드 오류 ({normalized_name}): {e}")`). -/
def envFileOutcome (pt pn : String → Option ℚ) (f : CsvFile) :
    Option (Except String (List EnvRow)) :=
  if envCsvMatch f then
    match ecGoalOf (envSchoolOf f.name) with
    | none => none
    | some g =>
      some ((do
        let raw ← f.content
        processEnvFrame pt pn (envSchoolOf f.name) g raw).mapError
          (fun e => "환경 데이터 파일 로드 오류 (" ++ f.name ++ "): " ++ e))
  else none

/-- Sequence of per-file outcomes over the directory scan. -/
def envOutcomes (pt pn : String → Option ℚ) (dir : List CsvFile) :
    List (Except String (List EnvRow)) :=
  dir.filterMap (envFileOutcome pt pn)

/-- The list `all_env_data`: one frame of rows per successfully loaded
file. -/
def envFrames (pt pn : String → Option ℚ) (dir : List CsvFile) :
    List (List EnvRow) :=
  (envOutcomes pt pn dir).filterMap (fun o => o.toOption)

/-- The per-file error messages displayed during the scan. -/
def envErrors (pt pn : String → Option ℚ) (dir : List CsvFile) : List String :=
  (envOutcomes pt pn dir).filterMap (fun o =>
    match o with
    | .error e => some e
    | .ok _ => none)

/-- One row of `env_summary_df`. -/
structure EnvSummaryRow where
  school : String
  avg_temp : Option ℚ
  avg_humidity : Option ℚ
  avg_ph : Option ℚ
  avg_ec : Option ℚ
  ec_goal : ℚ
  count : ℕ
deriving DecidableEq

/-- Summary row of one school group: pandas `mean` per numeric column,
`first` for `ec_goal`, and `count` of the non-null `time` cells
(`count=('time', 'count')`). -/
def mkEnvSummary (rows : List EnvRow) (k : String) : EnvSummaryRow :=
  let g := rows.filter (fun r => decide (r.school = k))
  { school := k
    avg_temp := meanOpt (g.map (fun r => r.temperature))
    avg_humidity := meanOpt (g.map (fun r => r.humidity))
    avg_ph := meanOpt (g.map (fun r => r.ph))
    avg_ec := meanOpt (g.map (fun r => r.ec))
    ec_goal := (g.map (fun r => r.ec_goal)).headD 0
    count := (g.map (fun r => r.time)).countP (fun t => t.isSome) }

/-- The aggregation `env_df.groupby('school').agg(...).reset_index()`
(`main.py` lines 88-95). -/
def envAggregate (rows : List EnvRow) : List EnvSummaryRow :=
  (groupKeys (rows.map (fun r => r.school))).map (mkEnvSummary rows)

/-- Result of `load_and_preprocess_env_data`: the unified table `env_df`,
the summary `env_summary_df`, the per-file error messages shown, and
whether the aggregate "no usable environment data" error was shown. -/
structure EnvOutput where
  envRows : List EnvRow
  summary : List EnvSummaryRow
  errors : List String
  noDataSignal : Bool
deriving DecidableEq

/-- The environment loader (`main.py` lines 43-97): scan the directory,
load each matching file, and aggregate; when no file contributed a frame
(`if not all_env_data`) display the aggregate error and return two empty
tables. -/
def load_and_preprocess_env_data (pt pn : String → Option ℚ)
    (dir : List CsvFile) : EnvOutput :=
  let frames := envFrames pt pn dir
  if frames.isEmpty then
    ⟨[], [], envErrors pt pn dir, true⟩
  else
    ⟨frames.flatten, envAggregate frames.flatten, envErrors pt pn dir, false⟩

/-- Spreadsheet cell as parsed by `xls.parse`: a number, a string, or an
empty cell (pandas `NaN`). -/
inductive XCell where
  | num (q : ℚ)
  | str (s : String)
  | blank
deriving DecidableEq

/-- A stored spreadsheet cell as a pandas value: an empty cell is `NaN`
(null), anything else is kept as is.  Used for the `individual_id`
column, which the loader never coerces. -/
def xVal (c : XCell) : Option XCell :=
  match c with
  | .blank => none
  | c => some c

/-- Cell-level semantics of `pd.to_numeric(errors='coerce')` on a
spreadsheet column: numbers pass through, strings go through the
best-effort numeric parser, empty cells stay null. -/
def xToNumeric (pn : String → Option ℚ) (c : XCell) : Option ℚ :=
  match c with
  | .num q => some q
  | .str s => pn s
  | .blank => none

/-- One sheet of the growth workbook: its (NFC-normalized) name and the
outcome of `xls.parse(sheet_name)`. -/
structure Sheet where
  name : String
  content : Except String (RawFrame XCell)
deriving DecidableEq

/-- Directory entry as seen by the growth loader: filename, regular-file
flag, and the outcome of opening it as a workbook (`pd.ExcelFile`). -/
structure XlsxFile where
  name : String
  isFile : Bool
  book : Except String (List Sheet)
deriving DecidableEq

/-- Filename filter of the growth loader: a regular file with an `.xlsx`
extension (case-insensitive) whose normalized name contains the token
`생육결과데이터`. -/
def growthFileMatch (f : XlsxFile) : Bool :=
  f.isFile && (lowerStr (pathSuffix f.name) == ".xlsx") && containsSub f.name "생육결과데이터"

/-- Unified growth record: row of `growth_df`.  The `individual_id`
column is stored as parsed (an empty cell is null); the four measurement
columns are numerically coerced. -/
structure GrowthRow where
  individual_id : Option XCell
  leaf_count : Option ℚ
  shoot_length : Option ℚ
  root_length : Option ℚ
  fresh_weight : Option ℚ
  school : String
  ec_goal : ℚ
deriving DecidableEq

/-- Contribution of one sheet to the growth loader (`main.py` lines
130-146): skipped silently when the sheet name is not a registry key;
otherwise parse, rename the five columns positionally, coerce the four
numeric columns, and tag with school and EC target; a caught per-sheet
error is reported as a warning naming the sheet. -/
def growthSheetOutcome (pn : String → Option ℚ) (sh : Sheet) :
    Option (Except String (List GrowthRow)) :=
  match ecGoalOf sh.name with
  | none => none
  | some g =>
    some ((do
      let raw ← sh.content
      let raw5 ← setColumns5 raw
      pure (raw5.rows.map (fun (r : List XCell) =>
        ({ individual_id := xVal (r.getD 0 .blank),
           leaf_count := xToNumeric pn (r.getD 1 .blank),
           shoot_length := xToNumeric pn (r.getD 2 .blank),
           root_length := xToNumeric pn (r.getD 3 .blank),
           fresh_weight := xToNumeric pn (r.getD 4 .blank),
           school := sh.name,
           ec_goal := g } : GrowthRow)))).mapError
        (fun e => "생육 결과 시트 로드 오류 (" ++ sh.name ++ "): " ++ e))

/-- The list `all_growth_data`: one frame of rows per successfully loaded
sheet. -/
def growthFrames (pn : String → Option ℚ) (sheets : List Sheet) :
    List (List GrowthRow) :=
  (sheets.filterMap (growthSheetOutcome pn)).filterMap (fun o => o.toOption)

/-- Python `str(float)` for the EC targets: an integral value renders
with a trailing `.0` (e.g. `1.0`), matching `float64`-column
`astype(str)`; non-integral values (absent from the registry) fall back
to the plain rational rendering. -/
def pyFloatStr (q : ℚ) : String :=
  if q.den = 1 then toString q.num ++ ".0" else toString q

/-- The display label of an EC group:
`growth_summary_df['ec_goal'].astype(str) + ' EC'` (`main.py` line 161). -/
def mkEcLabel (q : ℚ) : String :=
  pyFloatStr q ++ " EC"

/-- One row of the growth aggregation before the label step, keyed by the
numeric `ec_goal`. -/
structure GrowthSummaryRowQ where
  ec_goal : ℚ
  avg_fresh_weight : Option ℚ
  avg_leaf_count : Option ℚ
  avg_shoot_length : Option ℚ
  count : ℕ
deriving DecidableEq

/-- One row of `growth_summary_df` after the label step (`ec_goal` is the
display label). -/
structure GrowthSummaryRow where
  ec_goal : String
  avg_fresh_weight : Option ℚ
  avg_leaf_count : Option ℚ
  avg_shoot_length : Option ℚ
  count : ℕ
deriving DecidableEq

/-- Summary row of one EC group: pandas `mean` per measurement column and
`count` of the non-null `individual_id` cells
(`count=('individual_id', 'count')`). -/
def mkGrowthSummary (rows : List GrowthRow) (k : ℚ) : GrowthSummaryRowQ :=
  let g := rows.filter (fun r => decide (r.ec_goal = k))
  { ec_goal := k
    avg_fresh_weight := meanOpt (g.map (fun r => r.fresh_weight))
    avg_leaf_count := meanOpt (g.map (fun r => r.leaf_count))
    avg_shoot_length := meanOpt (g.map (fun r => r.shoot_length))
    count := (g.map (fun r => r.individual_id)).countP (fun c => c.isSome) }

/-- The aggregation `growth_df.groupby('ec_goal').agg(...).reset_index()`
(`main.py` lines 155-160). -/
def growthAggregate (rows : List GrowthRow) : List GrowthSummaryRowQ :=
  (groupKeys (rows.map (fun r => r.ec_goal))).map (mkGrowthSummary rows)

/-- The full growth summary, with the `ec_goal` key rendered into its
display label (`main.py` line 161). -/
def growthSummaryOf (rows : List GrowthRow) : List GrowthSummaryRow :=
  (growthAggregate rows).map (fun r =>
    ⟨mkEcLabel r.ec_goal, r.avg_fresh_weight, r.avg_leaf_count, r.avg_shoot_length, r.count⟩)

/-- Result of `load_and_preprocess_growth_data`: the unified table
`growth_df`, the summary `growth_summary_df`, and which of the three
failure messages (no matching file, workbook open failure, no usable
sheet) was shown. -/
structure GrowthOutput where
  rows : List GrowthRow
  summary : List GrowthSummaryRow
  noFileSignal : Bool
  bookErrorSignal : Bool
  noSheetSignal : Bool
deriving DecidableEq

/-- The growth loader (`main.py` lines 100-163): find the first matching
workbook, enumerate its sheets, load each registry-named sheet, and
aggregate. -/
def load_and_preprocess_growth_data (pn : String → Option ℚ)
    (dir : List XlsxFile) : GrowthOutput :=
  match dir.find? growthFileMatch with
  | none => ⟨[], [], true, false, false⟩
  | some f =>
    match f.book with
    | .error _ => ⟨[], [], false, true, false⟩
    | .ok sheets =>
      let frames := growthFrames pn sheets
      if frames.isEmpty then ⟨[], [], false, false, true⟩
      else ⟨frames.flatten, growthSummaryOf frames.flatten, false, false, false⟩

/-- Accumulator pass of the decimal-digit reader. -/
def digitsToNatAux : List Char → ℕ → Option ℕ
  | [], acc => some acc
  | c :: cs, acc =>
    if c.isDigit then digitsToNatAux cs (acc * 10 + (c.toNat - 48)) else none

/-- Reads a non-empty all-digit character list as a natural number. -/
def digitsToNat (l : List Char) : Option ℕ :=
  match l with
  | [] => none
  | _ => digitsToNatAux l 0

/-- Python `float(label.split(' ')[0])` restricted to the decimal
literals this dashboard produces: an optional integer part and an
optional fractional part separated by one dot. -/
def pyParseFloat (s : String) : Option ℚ :=
  match splitChars '.' s.data with
  | [a] => (digitsToNat a).map (fun n => (n : ℚ))
  | [a, b] =>
    match digitsToNat a, digitsToNat b with
    | some n, some m => some ((n : ℚ) + (m : ℚ) / ((10 : ℚ) ^ b.length))
    | _, _ => none
  | _ => none

/-- Reverse registry lookup used by `tab3` (`main.py` line 386):
`[s for s, data in EC_MAPPING.items() if data['EC_goal'] == float(row['ec_goal'].split(' ')[0])][0]`. -/
def schoolNameOfLabel (label : String) : Option String :=
  match pyParseFloat (String.mk ((splitChars ' ' label.data).headD [])) with
  | none => none
  | some q => (EC_MAPPING.find? (fun e => e.2.1 == q)).map (fun e => e.1)

/-- Column list of the unified environment table `env_df`. -/
def envTableCols : List String :=
  ["time", "temperature", "humidity", "ph", "ec", "school", "ec_goal"]

/-- Column list of the unified growth table `growth_df`. -/
def growthTableCols : List String :=
  ["individual_id", "leaf_count", "shoot_length", "root_length", "fresh_weight", "school", "ec_goal"]

/-- Column-level model of `df.drop(columns=['ec_goal'], errors='ignore')`,
the operation applied to the two on-screen tables (`main.py` lines 350
and 516). -/
def dropEcGoal (cols : List String) : List String :=
  cols.filter (fun c => c != "ec_goal")

/-- Cell rendering used by the CSV writer: a null cell becomes the empty
field, a number its decimal rendering. -/
def csvCell (x : Option ℚ) : String :=
  match x with
  | none => ""
  | some q => pyFloatStr q

/-- Cell grid written by `df.to_csv(index=False)` for the environment
download: the header holds every column of the frame (nothing is
dropped), then one line per row. -/
def csvLines (df : List EnvRow) : List (List String) :=
  envTableCols ::
    df.map (fun r =>
      [csvCell r.time, csvCell r.temperature, csvCell r.humidity,
       csvCell r.ph, csvCell r.ec, r.school, pyFloatStr r.ec_goal])

/-- Joins a list of strings with a separator (structural model of
`str.join`, used by the CSV writer). -/
def joinWith (sep : String) : List String → String
  | [] => ""
  | [x] => x
  | x :: xs => x ++ sep ++ joinWith sep xs

/-- The function `convert_df_to_csv` (`main.py` lines 355-357):
`df.to_csv(index=False, encoding='utf-8-sig')` with the default
`path_or_buf=None` returns the CSV text as a plain string; pandas
silently ignores the `encoding` argument for string output (no codec
runs), so the returned text carries no byte-order mark. -/
def convert_df_to_csv (df : List EnvRow) : String :=
  joinWith "\n" ((csvLines df).map (fun l => joinWith "," l))

/-- Rendering of a stored spreadsheet cell in the growth export. -/
def xCellStr (c : Option XCell) : String :=
  match c with
  | none => ""
  | some (.num q) => pyFloatStr q
  | some (.str s) => s
  | some .blank => ""

/-- Cell grid written by `filtered_growth_df.to_excel(index=False)` for
the growth download (`main.py` line 522): the header row holds every
column of the frame, then one row per record. -/
def xlsxLines (df : List GrowthRow) : List (List String) :=
  growthTableCols ::
    df.map (fun r =>
      [xCellStr r.individual_id, csvCell r.leaf_count, csvCell r.shoot_length,
       csvCell r.root_length, csvCell r.fresh_weight, r.school, pyFloatStr r.ec_goal])

/-- Generic input table of the aggregator contract: one grouping key and
`n` numeric (nullable) columns per row. -/
structure KTable (κ : Type) (n : ℕ) where
  rows : List (κ × (Fin n → Option ℚ))

/-- Generic summary produced by the aggregator contract: one row per
distinct key with the column means and the row count of the group. -/
structure KSummary (κ : Type) (n : ℕ) where
  rows : List (κ × (Fin n → Option ℚ) × ℕ)

/-- The aggregator contract shared by the two `groupby(...).agg(...)`
calls: group by the key column (pandas default ordering), take the mean
of every numeric column and the row count of each group. -/
def aggregateTable {κ : Type} {n : ℕ} [LinearOrder κ] [DecidableEq κ]
    (t : KTable κ n) : KSummary κ n :=
  ⟨(groupKeys (t.rows.map Prod.fst)).map (fun k =>
    let g := t.rows.filter (fun r => decide (r.1 = k))
    (k, fun i => meanOpt (g.map (fun r => r.2 i)), g.length))⟩

/-- Reading a summary back as an input table for re-aggregation: the key
column and the mean columns (the shape the idempotence claim needs). -/
def summaryAsTable {κ : Type} {n : ℕ} (s : KSummary κ n) : KTable κ n :=
  ⟨s.rows.map (fun r => (r.1, r.2.1))⟩

/-- Concrete best-effort parser used in witnesses: decimal digit strings
parse, everything else is null. -/
def natParse (s : String) : Option ℚ :=
  (digitsToNat s.data).map (fun n => (n : ℚ))

/-- Concrete directory for the empty-concatenation counterexample: one
matched CSV whose single row has an unparseable timestamp. -/
def envDirAllRowsDropped : List CsvFile :=
  [⟨"송도고_환경데이터.csv", true, .ok ⟨5, [["x", "1", "2", "3", "4"]]⟩⟩]

/-- Concrete matched CSV that loads one valid row. -/
def csvGood1 : CsvFile :=
  ⟨"송도고_환경데이터.csv", true, .ok ⟨5, [["1", "21", "60", "6", "1"]]⟩⟩

/-- Concrete matched CSV whose parsed frame has four columns. -/
def csvBadCols : CsvFile :=
  ⟨"하늘고_환경데이터.csv", true, .ok ⟨4, [["1", "2", "3", "4"]]⟩⟩

/-- Concrete matched CSV that loads one valid row for a second school. -/
def csvGood2 : CsvFile :=
  ⟨"아라고_환경데이터.csv", true, .ok ⟨5, [["7", "22", "61", "7", "4"]]⟩⟩

/-- Concrete matched CSV whose school prefix is not a registry key. -/
def csvUnmapped : CsvFile :=
  ⟨"기타고_환경데이터.csv", true, .ok ⟨5, [["1", "2", "3", "4", "5"]]⟩⟩

/-- Concrete environment rows with missing cells: the temperature column
of the single school group is `[10, missing, 20]`. -/
def envRowsMean : List EnvRow :=
  [⟨some 1, some 10, none, some 6, some 1, "송도고", 1⟩,
   ⟨some 2, none, some 50, none, some 1, "송도고", 1⟩,
   ⟨some 3, some 20, none, none, some 1, "송도고", 1⟩]

/-- Concrete growth rows with a missing measurement cell. -/
def growthRowsMean : List GrowthRow :=
  [⟨some (.str "A1"), some 5, some 100, some 30, some 2, "송도고", 1⟩,
   ⟨some (.str "A2"), none, some 120, none, some 3, "송도고", 1⟩]

/-- Concrete growth rows whose EC keys first occur in descending order. -/
def growthRowsUnsorted : List GrowthRow :=
  [⟨some (.str "H1"), some 4, some 90, some 25, some 5, "하늘고", 2⟩,
   ⟨some (.str "S1"), some 5, some 100, some 30, some 2, "송도고", 1⟩]

/-- Concrete growth directory: one workbook whose single registry sheet
has two rows, the first with a blank `individual_id` cell, plus one
unmapped sheet. -/
def growthDirBlankId : List XlsxFile :=
  [⟨"생육결과데이터.xlsx", true,
    .ok [⟨"송도고", .ok ⟨5, [[.blank, .num 5, .num 100, .num 30, .num 2],
                              [.str "B2", .num 6, .num 110, .num 31, .num 3]]⟩⟩,
         ⟨"기타시트", .ok ⟨5, [[.str "Z1", .num 1, .num 1, .num 1, .num 1]]⟩⟩]⟩]

/-- Concrete two-row one-key table for the idempotence counterexample. -/
def kTableDup : KTable ℚ 1 :=
  ⟨[((1 : ℚ), fun _ => some 10), ((1 : ℚ), fun _ => some 20)]⟩

/-- Concrete mixed environment frame: a valid row, a row with an
unparseable timestamp, and a valid-timestamp row with an unparseable
temperature cell. -/
def envRawMixed : RawFrame String :=
  ⟨5, [["1", "2", "3", "4", "5"], ["bad", "6", "7", "8", "9"], ["2", "x", "10", "11", "12"]]⟩

/-- The first record loaded from the blank-id growth workbook. -/
def growthRowBlank : GrowthRow :=
  ⟨none, some 5, some 100, some 30, some 2, "송도고", 1⟩

/-- The single record loaded from `csvGood1`. -/
def envRowGood1 : EnvRow :=
  ⟨some 1, some 21, some 60, some 6, some 1, "송도고", 1⟩

/-- The environment summary row of the `csvGood1` directory. -/
def esGood1 : EnvSummaryRow :=
  ⟨"송도고", some 21, some 60, some 6, some 1, 1, 1⟩

/-- The environment summary row produced for the school group of the
mean-computation witness. -/
def esMean : EnvSummaryRow :=
  ⟨"송도고", some 15, some 50, some 6, some 1, 1, 3⟩

/-- The growth summary row produced for the EC group of the
mean-computation witness. -/
def gsMean : GrowthSummaryRowQ :=
  ⟨1, some (5 / 2 : ℚ), some 5, some 110, 2⟩

/-- A sheet whose name is not a registry key. -/
def sheetUnmapped : Sheet :=
  ⟨"기타시트", .ok ⟨5, [[.str "Z1", .num 1, .num 1, .num 1, .num 1]]⟩⟩

theorem foldl_meanAcc (xs : List (Option ℚ)) (s : ℚ) (c : ℕ) :
    xs.foldl meanAcc (s, c) =
      (s + (xs.filterMap id).sum, c + (xs.filterMap id).length) := by
  induction xs generalizing s c with
  | nil => simp
  | cons x xs ih =>
    cases x with
    | none => simpa [meanAcc, List.filterMap_cons] using ih s c
    | some v =>
      simp only [List.foldl_cons, meanAcc, ih, List.filterMap_cons, id_eq, List.sum_cons,
        List.length_cons, Prod.mk.injEq]
      constructor
      · ring
      · omega

/-- The pandas mean of a column is exactly the arithmetic mean of its
non-missing values. -/
theorem meanOpt_eq_specMean (xs : List (Option ℚ)) : meanOpt xs = specMean xs := by
  simp only [meanOpt, specMean, foldl_meanAcc, zero_add]

theorem meanOpt_singleton (x : Option ℚ) : meanOpt [x] = x := by
  cases x <;> simp [meanOpt, meanAcc]

theorem meanAcc_some (acc : ℚ × ℕ) (v : ℚ) : meanAcc acc (some v) = (acc.1 + v, acc.2 + 1) :=
  rfl

theorem meanAcc_none (acc : ℚ × ℕ) : meanAcc acc none = acc :=
  rfl

theorem sorted_groupKeys {κ : Type} [LinearOrder κ] [DecidableEq κ] (ks : List κ) :
    List.Sorted (· ≤ ·) (groupKeys ks) :=
  List.sorted_insertionSort _ _

theorem nodup_groupKeys {κ : Type} [LinearOrder κ] [DecidableEq κ] (ks : List κ) :
    (groupKeys ks).Nodup :=
  ((List.perm_insertionSort _ _).nodup_iff).mpr (List.nodup_dedup ks)

theorem mem_groupKeys {κ : Type} [LinearOrder κ] [DecidableEq κ] {ks : List κ} {k : κ} :
    k ∈ groupKeys ks ↔ k ∈ ks := by
  simp [groupKeys, List.mem_dedup]

theorem groupKeys_of_sorted_nodup {κ : Type} [LinearOrder κ] [DecidableEq κ] {ks : List κ}
    (h1 : ks.Nodup) (h2 : List.Sorted (· ≤ ·) ks) : groupKeys ks = ks := by
  rw [groupKeys, h1.dedup, h2.insertionSort_eq]

/-- Normal form of the per-file environment pipeline on a five-column
frame: exactly the rows whose timestamp cell parses are retained, in
order, and each numeric field is the best-effort parse of its cell. -/
theorem processEnvFrame_eq (pt pn : String → Option ℚ) (school : String) (g : ℚ)
    (raw : RawFrame String) (h : raw.ncols = 5) :
    processEnvFrame pt pn school g raw =
      .ok ((raw.rows.filter (fun r => (pt (r.getD 0 "")).isSome)).map (fun r =>
        { time := pt (r.getD 0 ""), temperature := pn (r.getD 1 ""),
          humidity := pn (r.getD 2 ""), ph := pn (r.getD 3 ""), ec := pn (r.getD 4 ""),
          school := school, ec_goal := g })) := by
  simp only [processEnvFrame, setColumns5, h, if_pos, List.filter_map, List.map_map]
  rfl

theorem envFileOutcome_ok_mem (pt pn : String → Option ℚ) (f : CsvFile)
    (l : List EnvRow) (h : envFileOutcome pt pn f = some (.ok l))
    (r : EnvRow) (hr : r ∈ l) :
    ecGoalOf r.school = some r.ec_goal ∧ r.time.isSome = true := by
  unfold envFileOutcome at h
  by_cases hm : envCsvMatch f = true
  · rw [if_pos hm] at h
    cases hG : ecGoalOf (envSchoolOf f.name) with
    | none => rw [hG] at h; exact absurd h (by simp)
    | some g =>
      rw [hG] at h
      simp only [Option.some.injEq] at h
      cases hc : f.content with
      | error e =>
        rw [hc] at h
        simp [Except.mapError, Except.bind, bind] at h
      | ok raw =>
        rw [hc] at h
        simp only [bind, Except.bind] at h
        by_cases hn : raw.ncols = 5
        · rw [processEnvFrame_eq pt pn _ g raw hn] at h
          simp only [Except.mapError, Except.ok.injEq] at h
          subst h
          simp only [List.mem_map, List.mem_filter] at hr
          obtain ⟨row, ⟨_, hsome⟩, hrow⟩ := hr
          subst hrow
          exact ⟨by simpa using hG, hsome⟩
        · have hpe : processEnvFrame pt pn (envSchoolOf f.name) g raw = .error "Length mismatch" := by
            simp [processEnvFrame, setColumns5, hn]
          rw [hpe] at h
          simp [Except.mapError] at h
  · rw [if_neg hm] at h
    exact absurd h (by simp)

theorem mem_envFrames (pt pn : String → Option ℚ) (dir : List CsvFile)
    (fr : List EnvRow) (h : fr ∈ envFrames pt pn dir) :
    ∃ f ∈ dir, envFileOutcome pt pn f = some (.ok fr) := by
  simp only [envFrames, envOutcomes, List.mem_filterMap] at h
  obtain ⟨o, ho, hofr⟩ := h
  obtain ⟨f, hf, hout⟩ := ho
  cases o with
  | error e => simp [Except.toOption] at hofr
  | ok l =>
    simp only [Except.toOption, Option.some.injEq] at hofr
    subst hofr
    exact ⟨f, hf, hout⟩

theorem mem_envRows_inv (pt pn : String → Option ℚ) (dir : List CsvFile)
    (r : EnvRow) (h : r ∈ (load_and_preprocess_env_data pt pn dir).envRows) :
    ecGoalOf r.school = some r.ec_goal ∧ r.time.isSome = true := by
  unfold load_and_preprocess_env_data at h
  by_cases he : (envFrames pt pn dir).isEmpty
  · rw [if_pos he] at h; exact absurd h (by simp)
  · rw [if_neg he] at h
    simp only [List.mem_flatten] at h
    obtain ⟨fr, hfr, hr⟩ := h
    obtain ⟨f, _, hout⟩ := mem_envFrames pt pn dir fr hfr
    exact envFileOutcome_ok_mem pt pn f fr hout r hr

theorem growthSheetOutcome_ok_mem (pn : String → Option ℚ) (sh : Sheet)
    (l : List GrowthRow) (h : growthSheetOutcome pn sh = some (.ok l))
    (r : GrowthRow) (hr : r ∈ l) :
    ecGoalOf r.school = some r.ec_goal := by
  unfold growthSheetOutcome at h
  cases hG : ecGoalOf sh.name with
  | none => rw [hG] at h; exact absurd h (by simp)
  | some g =>
    rw [hG] at h
    simp only [Option.some.injEq] at h
    cases hc : sh.content with
    | error e =>
      rw [hc] at h
      simp [Except.mapError, Except.bind, bind] at h
    | ok raw =>
      rw [hc] at h
      simp only [bind, Except.bind] at h
      by_cases hn : raw.ncols = 5
      · simp only [setColumns5, hn, if_pos, Except.mapError, pure, Except.pure,
          Except.ok.injEq] at h
        subst h
        simp only [List.mem_map] at hr
        obtain ⟨row, _, hrow⟩ := hr
        subst hrow
        simpa using hG
      · simp [setColumns5, hn, Except.mapError] at h

theorem mem_growthFrames (pn : String → Option ℚ) (sheets : List Sheet)
    (fr : List GrowthRow) (h : fr ∈ growthFrames pn sheets) :
    ∃ sh ∈ sheets, growthSheetOutcome pn sh = some (.ok fr) := by
  simp only [growthFrames, List.mem_filterMap] at h
  obtain ⟨o, ho, hofr⟩ := h
  obtain ⟨sh, hsh, hout⟩ := ho
  cases o with
  | error e => simp [Except.toOption] at hofr
  | ok l =>
    simp only [Except.toOption, Option.some.injEq] at hofr
    subst hofr
    exact ⟨sh, hsh, hout⟩

theorem mem_growthRows_inv (pn : String → Option ℚ) (dir : List XlsxFile)
    (r : GrowthRow) (h : r ∈ (load_and_preprocess_growth_data pn dir).rows) :
    ecGoalOf r.school = some r.ec_goal := by
  unfold load_and_preprocess_growth_data at h
  cases hf : dir.find? growthFileMatch with
  | none => rw [hf] at h; exact absurd h (by simp)
  | some f =>
    rw [hf] at h
    dsimp only at h
    cases hb : f.book with
    | error e => rw [hb] at h; exact absurd h (by simp)
    | ok sheets =>
      rw [hb] at h
      dsimp only at h
      by_cases he : (growthFrames pn sheets).isEmpty
      · rw [if_pos he] at h; exact absurd h (by simp)
      · rw [if_neg he] at h
        simp only [List.mem_flatten] at h
        obtain ⟨fr, hfr, hr⟩ := h
        obtain ⟨sh, _, hout⟩ := mem_growthFrames pn sheets fr hfr
        exact growthSheetOutcome_ok_mem pn sh fr hout r hr

theorem mem_envAggregate (rows : List EnvRow) (s : EnvSummaryRow)
    (h : s ∈ envAggregate rows) :
    ∃ k, k ∈ groupKeys (rows.map (fun r => r.school)) ∧ s = mkEnvSummary rows k := by
  simp only [envAggregate, List.mem_map] at h
  obtain ⟨k, hk, hs⟩ := h
  exact ⟨k, hk, hs.symm⟩

theorem mem_growthAggregate (rows : List GrowthRow) (s : GrowthSummaryRowQ)
    (h : s ∈ growthAggregate rows) :
    ∃ k, k ∈ groupKeys (rows.map (fun r => r.ec_goal)) ∧ s = mkGrowthSummary rows k := by
  simp only [growthAggregate, List.mem_map] at h
  obtain ⟨k, hk, hs⟩ := h
  exact ⟨k, hk, hs.symm⟩

/-- Evaluation of the environment aggregation at the mean-witness data. -/
theorem envAggregate_envRowsMean : envAggregate envRowsMean = [esMean] := by
  have hk : groupKeys (envRowsMean.map (fun r => r.school)) = ["송도고"] := by decide
  have hfil : envRowsMean.filter (fun r => decide (r.school = "송도고")) = envRowsMean := by decide
  simp only [envAggregate, hk, List.map_cons, List.map_nil, mkEnvSummary, hfil]
  simp only [envRowsMean, esMean, List.map_cons, List.map_nil, meanOpt, meanAcc,
    List.foldl_cons, List.foldl_nil, List.countP_cons, List.countP_nil, Option.isSome]
  norm_num

/-- Evaluation of the growth aggregation at the mean-witness data. -/
theorem growthAggregate_growthRowsMean : growthAggregate growthRowsMean = [gsMean] := by
  have hk : groupKeys (growthRowsMean.map (fun r => r.ec_goal)) = [1] := by decide
  have hfil : growthRowsMean.filter (fun r => decide (r.ec_goal = 1)) = growthRowsMean := by decide
  simp only [growthAggregate, hk, List.map_cons, List.map_nil, mkGrowthSummary, hfil]
  simp only [growthRowsMean, gsMean, List.map_cons, List.map_nil, meanOpt, meanAcc_some,
    meanAcc_none, List.foldl_cons, List.foldl_nil, List.countP_cons, List.countP_nil,
    Option.isSome]
  norm_num

/-- C1: for every group produced by the aggregator, each mean statistic
(avg_temp, avg_humidity, avg_ph, avg_ec, avg_fresh_weight, avg_leaf_count,
avg_shoot_length) equals the arithmetic mean of the non-missing values of
that column within the group; missing values are excluded from both the
sum and the divisor. -/
theorem mean_excludes_missing (erows : List EnvRow) (grows : List GrowthRow)
    (es : EnvSummaryRow) (gs : GrowthSummaryRowQ)
    (he : es ∈ envAggregate erows) (hg : gs ∈ growthAggregate grows) :
    es.avg_temp =
      specMean ((erows.filter (fun r => decide (r.school = es.school))).map (fun r => r.temperature)) ∧
    es.avg_humidity =
      specMean ((erows.filter (fun r => decide (r.school = es.school))).map (fun r => r.humidity)) ∧
    es.avg_ph =
      specMean ((erows.filter (fun r => decide (r.school = es.school))).map (fun r => r.ph)) ∧
    es.avg_ec =
      specMean ((erows.filter (fun r => decide (r.school = es.school))).map (fun r => r.ec)) ∧
    gs.avg_fresh_weight =
      specMean ((grows.filter (fun r => decide (r.ec_goal = gs.ec_goal))).map (fun r => r.fresh_weight)) ∧
    gs.avg_leaf_count =
      specMean ((grows.filter (fun r => decide (r.ec_goal = gs.ec_goal))).map (fun r => r.leaf_count)) ∧
    gs.avg_shoot_length =
      specMean ((grows.filter (fun r => decide (r.ec_goal = gs.ec_goal))).map (fun r => r.shoot_length)) := by
  obtain ⟨k, hk, rfl⟩ := mem_envAggregate erows es he
  obtain ⟨kq, hkq, rfl⟩ := mem_growthAggregate grows gs hg
  refine ⟨?_, ?_, ?_, ?_, ?_, ?_, ?_⟩ <;>
    simp [mkEnvSummary, mkGrowthSummary, meanOpt_eq_specMean]

/-- Witness for the mean claim at concrete data: a group whose temperature
column is `[10, missing, 20]` gets mean `15`, not `10`. -/
theorem mean_excludes_missing_witness :
    (esMean.avg_temp =
      specMean ((envRowsMean.filter (fun r => decide (r.school = esMean.school))).map (fun r => r.temperature)) ∧
     esMean.avg_humidity =
      specMean ((envRowsMean.filter (fun r => decide (r.school = esMean.school))).map (fun r => r.humidity)) ∧
     esMean.avg_ph =
      specMean ((envRowsMean.filter (fun r => decide (r.school = esMean.school))).map (fun r => r.ph)) ∧
     esMean.avg_ec =
      specMean ((envRowsMean.filter (fun r => decide (r.school = esMean.school))).map (fun r => r.ec)) ∧
     gsMean.avg_fresh_weight =
      specMean ((growthRowsMean.filter (fun r => decide (r.ec_goal = gsMean.ec_goal))).map (fun r => r.fresh_weight)) ∧
     gsMean.avg_leaf_count =
      specMean ((growthRowsMean.filter (fun r => decide (r.ec_goal = gsMean.ec_goal))).map (fun r => r.leaf_count)) ∧
     gsMean.avg_shoot_length =
      specMean ((growthRowsMean.filter (fun r => decide (r.ec_goal = gsMean.ec_goal))).map (fun r => r.shoot_length))) ∧
    esMean.avg_temp = some 15 :=
  ⟨mean_excludes_missing envRowsMean growthRowsMean esMean gsMean
      (envAggregate_envRowsMean ▸ List.mem_singleton.mpr rfl)
      (growthAggregate_growthRowsMean ▸ List.mem_singleton.mpr rfl),
   by decide⟩

/-- C2: in the environment loader, a row of a matched five-column CSV
appears in the output exactly when its timestamp cell parses; a row whose
timestamp parses but whose numeric cells fail to parse is retained with
those fields null (the best-effort parse of the cell), never zero. -/
theorem env_row_retention (pt pn : String → Option ℚ) (school : String) (g : ℚ)
    (raw : RawFrame String) (h : raw.ncols = 5) :
    processEnvFrame pt pn school g raw =
      .ok ((raw.rows.filter (fun r => (pt (r.getD 0 "")).isSome)).map (fun r =>
        { time := pt (r.getD 0 ""), temperature := pn (r.getD 1 ""),
          humidity := pn (r.getD 2 ""), ph := pn (r.getD 3 ""), ec := pn (r.getD 4 ""),
          school := school, ec_goal := g })) :=
  processEnvFrame_eq pt pn school g raw h

/-- Witness for the retention claim at a concrete frame: the bad-timestamp
row is dropped, the bad-temperature row is kept with a null temperature. -/
theorem env_row_retention_witness :
    envRawMixed.ncols = 5 ∧
    processEnvFrame natParse natParse "송도고" 1 envRawMixed =
      .ok [⟨some 1, some 2, some 3, some 4, some 5, "송도고", 1⟩,
           ⟨some 2, none, some 10, some 11, some 12, "송도고", 1⟩] :=
  ⟨rfl, (env_row_retention natParse natParse "송도고" 1 envRawMixed rfl).trans (by decide)⟩

/-- C3 counterexample: with group keys first occurring in the order
[2, 1], the aggregator lists them as [1, 2] (pandas `groupby` sorts keys
by default), not in first-occurrence order. -/
theorem group_order_not_first_occurrence :
    (growthAggregate growthRowsUnsorted).map (fun s => s.ec_goal) = [1, 2] ∧
    firstOccurKeys (growthRowsUnsorted.map (fun r => r.ec_goal)) = [2, 1] ∧
    (growthAggregate growthRowsUnsorted).map (fun s => s.ec_goal) ≠
      firstOccurKeys (growthRowsUnsorted.map (fun r => r.ec_goal)) := by
  refine ⟨?_, ?_, ?_⟩ <;> decide

/-- C3 amended: the aggregator lists the distinct group keys in ascending
sorted order (pandas `groupby` default `sort=True`), not in order of
first occurrence. -/
theorem group_order_sorted (erows : List EnvRow) (grows : List GrowthRow) :
    List.Sorted (· ≤ ·) ((envAggregate erows).map (fun s => s.school)) ∧
    ((envAggregate erows).map (fun s => s.school)).Nodup ∧
    (∀ s, s ∈ (envAggregate erows).map (fun x => x.school) ↔ s ∈ erows.map (fun r => r.school)) ∧
    List.Sorted (· ≤ ·) ((growthAggregate grows).map (fun s => s.ec_goal)) ∧
    ((growthAggregate grows).map (fun s => s.ec_goal)).Nodup ∧
    (∀ q, q ∈ (growthAggregate grows).map (fun x => x.ec_goal) ↔ q ∈ grows.map (fun r => r.ec_goal)) := by
  have he : (envAggregate erows).map (fun s => s.school)
      = groupKeys (erows.map (fun r => r.school)) := by
    rw [envAggregate, List.map_map]
    have hcomp : ((fun s : EnvSummaryRow => s.school) ∘ mkEnvSummary erows) = fun k => k := by
      funext k
      simp [mkEnvSummary]
    rw [hcomp, List.map_id']
  have hg : (growthAggregate grows).map (fun s => s.ec_goal)
      = groupKeys (grows.map (fun r => r.ec_goal)) := by
    rw [growthAggregate, List.map_map]
    have hcomp : ((fun s : GrowthSummaryRowQ => s.ec_goal) ∘ mkGrowthSummary grows) = fun k => k := by
      funext k
      simp [mkGrowthSummary]
    rw [hcomp, List.map_id']
  rw [he, hg]
  exact ⟨sorted_groupKeys _, nodup_groupKeys _, fun s => mem_groupKeys,
    sorted_groupKeys _, nodup_groupKeys _, fun q => mem_groupKeys⟩

/-- C5 counterexample: re-aggregating the summary of a two-row one-key
table yields count 1 for the group whereas the original summary records
count 2, so re-aggregation does not reproduce the summary. -/
theorem aggregate_not_idempotent_cex :
    ((aggregateTable kTableDup).rows.map (fun r => r.2.2) = [2]) ∧
    ((aggregateTable (summaryAsTable (aggregateTable kTableDup))).rows.map (fun r => r.2.2) = [1]) ∧
    aggregateTable (summaryAsTable (aggregateTable kTableDup)) ≠ aggregateTable kTableDup := by
  have h1 : (aggregateTable kTableDup).rows.map (fun r => r.2.2) = [2] := by decide
  have h2 : (aggregateTable (summaryAsTable (aggregateTable kTableDup))).rows.map
      (fun r => r.2.2) = [1] := by decide
  refine ⟨h1, h2, fun h => ?_⟩
  rw [h, h1] at h2
  exact absurd h2 (by decide)

/-- Filtering a mapped list of pairwise-distinct keys for one of its keys
leaves exactly the element built from that key. -/
theorem filter_fst_map_nodup {κ A : Type} [DecidableEq κ] (f : κ → A) (key : A → κ)
    (hk : ∀ k, key (f k) = k) (ks : List κ) (h : ks.Nodup) (k : κ) (hm : k ∈ ks) :
    (ks.map f).filter (fun a => decide (key a = k)) = [f k] := by
  induction ks with
  | nil => cases hm
  | cons a as ih =>
    rw [List.map_cons, List.filter_cons]
    by_cases hak : a = k
    · subst hak
      have hrest : (as.map f).filter (fun x => decide (key x = a)) = [] := by
        rw [List.filter_eq_nil_iff]
        intro x hx
        obtain ⟨k', hk', rfl⟩ := List.mem_map.mp hx
        simp only [hk, decide_eq_true_eq]
        intro hEq
        exact (List.nodup_cons.mp h).1 (hEq ▸ hk')
      simp [hk, hrest]
    · have hd : decide (key (f a) = k) = false := by simp [hk, hak]
      simp only [hd, Bool.false_eq_true, if_false]
      have hm' : k ∈ as := by
        cases List.mem_cons.mp hm with
        | inl hEq => exact absurd hEq.symm hak
        | inr h2 => exact h2
      exact ih (List.nodup_cons.mp h).2 hm'

/-- Aggregating a table whose rows are distinct sorted keys paired with
mean columns returns those keys and columns unchanged with count 1. -/
theorem aggregateTable_keyed {κ : Type} [LinearOrder κ] [DecidableEq κ] {n : ℕ}
    (ks : List κ) (m : κ → Fin n → Option ℚ)
    (h1 : ks.Nodup) (h2 : List.Sorted (· ≤ ·) ks) :
    aggregateTable ⟨ks.map (fun k => (k, m k))⟩ = ⟨ks.map (fun k => (k, m k, 1))⟩ := by
  rw [aggregateTable]
  have hmap : (ks.map (fun k => (k, m k))).map Prod.fst = ks := by
    rw [List.map_map]
    exact List.map_id'' (fun _ => rfl) _
  simp only
  rw [hmap, groupKeys_of_sorted_nodup h1 h2]
  simp only [KSummary.mk.injEq]
  apply List.map_congr_left
  intro k hkmem
  rw [filter_fst_map_nodup (fun k => (k, m k)) Prod.fst (fun _ => rfl) ks h1 k hkmem]
  simp only [List.map_cons, List.map_nil, List.length_cons, List.length_nil]
  refine Prod.ext rfl (Prod.ext ?_ rfl)
  funext i
  exact meanOpt_singleton _

/-- C5 amended: re-aggregating a summary it already produced (grouped by
the same key) reproduces the keys, their order, and every mean column,
but records count 1 for every group; the original counts are lost, so the
aggregation is idempotent only on tables whose groups all have one row. -/
theorem aggregate_reaggregate {κ : Type} [LinearOrder κ] [DecidableEq κ] {n : ℕ}
    (t : KTable κ n) :
    aggregateTable (summaryAsTable (aggregateTable t)) =
      ⟨(aggregateTable t).rows.map (fun r => (r.1, r.2.1, 1))⟩ := by
  have hnodup : (groupKeys (t.rows.map Prod.fst)).Nodup := nodup_groupKeys _
  have hsorted : List.Sorted (· ≤ ·) (groupKeys (t.rows.map Prod.fst)) :=
    sorted_groupKeys _
  have hsum : summaryAsTable (aggregateTable t) =
      ⟨(groupKeys (t.rows.map Prod.fst)).map (fun k =>
        (k, fun i => meanOpt ((t.rows.filter (fun r => decide (r.1 = k))).map
          (fun r => r.2 i))))⟩ := by
    rw [aggregateTable, summaryAsTable]
    simp only [List.map_map]
    rfl
  rw [hsum,
    aggregateTable_keyed (groupKeys (t.rows.map Prod.fst))
      (fun k => fun i => meanOpt ((t.rows.filter (fun r => decide (r.1 = k))).map
        (fun r => r.2 i))) hnodup hsorted,
    aggregateTable]
  simp only [List.map_map]
  rfl

theorem mem_envFlatten_inv (pt pn : String → Option ℚ) (dir : List CsvFile)
    (r : EnvRow) (h : r ∈ (envFrames pt pn dir).flatten) :
    ecGoalOf r.school = some r.ec_goal ∧ r.time.isSome = true := by
  simp only [List.mem_flatten] at h
  obtain ⟨fr, hfr, hr⟩ := h
  obtain ⟨f, _, hout⟩ := mem_envFrames pt pn dir fr hfr
  exact envFileOutcome_ok_mem pt pn f fr hout r hr

/-- C4 counterexample: a growth sheet row with a blank `individual_id`
cell belongs to its ec_goal group but is not counted
(`count=('individual_id', 'count')` counts non-null ids only), so the
summary records count 1 for a group of 2 rows. -/
theorem growth_count_missing_id_cex :
    ((load_and_preprocess_growth_data natParse growthDirBlankId).summary.map
      (fun gs => gs.count) = [1]) ∧
    ((load_and_preprocess_growth_data natParse growthDirBlankId).rows.length = 2) ∧
    (∀ r ∈ (load_and_preprocess_growth_data natParse growthDirBlankId).rows,
      r.ec_goal = 1) := by
  refine ⟨?_, ?_, ?_⟩ <;> decide

/-- C4 amended: the environment summary `count` is the row count of the
school group (every loaded environment row has a valid timestamp), while
the growth summary `count` is the number of rows of the EC group whose
`individual_id` cell is non-null, which can be smaller than the group's
row count. -/
theorem count_semantics_amended (pt pn : String → Option ℚ) (dirE : List CsvFile)
    (es : EnvSummaryRow) (grows : List GrowthRow) (gs : GrowthSummaryRowQ)
    (he : es ∈ (load_and_preprocess_env_data pt pn dirE).summary)
    (hg : gs ∈ growthAggregate grows) :
    es.count = ((load_and_preprocess_env_data pt pn dirE).envRows.filter
      (fun r => decide (r.school = es.school))).length ∧
    gs.count = (grows.filter (fun r => decide (r.ec_goal = gs.ec_goal))).countP
      (fun r => r.individual_id.isSome) := by
  constructor
  · unfold load_and_preprocess_env_data at he ⊢
    by_cases hem : (envFrames pt pn dirE).isEmpty
    · rw [if_pos hem] at he
      exact absurd he (by simp)
    · rw [if_neg hem] at he ⊢
      dsimp only at he ⊢
      obtain ⟨k, hk, rfl⟩ := mem_envAggregate _ _ he
      simp only [mkEnvSummary]
      rw [List.countP_map, List.countP_eq_length]
      intro r hr
      simpa using (mem_envFlatten_inv pt pn dirE r (List.mem_filter.mp hr).1).2
  · obtain ⟨k, hk, rfl⟩ := mem_growthAggregate _ _ hg
    simp only [mkGrowthSummary]
    rw [List.countP_map]
    rfl

/-- Evaluation of the environment loader on the one-good-file directory. -/
theorem env_loader_good1 :
    load_and_preprocess_env_data natParse natParse [csvGood1] =
      ⟨[envRowGood1], [esGood1], [], false⟩ := by
  have hfr : envFrames natParse natParse [csvGood1] = [[envRowGood1]] := by decide
  have herr : envErrors natParse natParse [csvGood1] = [] := by decide
  have hagg : envAggregate [envRowGood1] = [esGood1] := by
    have hkeys : groupKeys ([envRowGood1].map (fun r => r.school)) = ["송도고"] := by decide
    have ht : ([envRowGood1].filter (fun r => decide (r.school = "송도고"))).map
        (fun r => r.temperature) = [some 21] := by decide
    have hh : ([envRowGood1].filter (fun r => decide (r.school = "송도고"))).map
        (fun r => r.humidity) = [some 60] := by decide
    have hp : ([envRowGood1].filter (fun r => decide (r.school = "송도고"))).map
        (fun r => r.ph) = [some 6] := by decide
    have hec : ([envRowGood1].filter (fun r => decide (r.school = "송도고"))).map
        (fun r => r.ec) = [some 1] := by decide
    have hgl : ([envRowGood1].filter (fun r => decide (r.school = "송도고"))).map
        (fun r => r.ec_goal) = [1] := by decide
    have hcnt : (([envRowGood1].filter (fun r => decide (r.school = "송도고"))).map
        (fun r => r.time)).countP (fun t => t.isSome) = 1 := by decide
    rw [envAggregate, hkeys, List.map_cons, List.map_nil]
    simp only [mkEnvSummary]
    rw [ht, hh, hp, hec, hgl, hcnt, meanOpt_singleton, meanOpt_singleton,
      meanOpt_singleton, meanOpt_singleton]
    decide
  unfold load_and_preprocess_env_data
  rw [hfr, herr]
  simp only [List.isEmpty_cons, Bool.false_eq_true, if_false, List.flatten,
    List.append_nil, hagg]

/-- Witness for the amended count claim at concrete data. -/
theorem count_semantics_amended_witness :
    esGood1.count = ((load_and_preprocess_env_data natParse natParse [csvGood1]).envRows.filter
      (fun r => decide (r.school = esGood1.school))).length ∧
    gsMean.count = (growthRowsMean.filter (fun r => decide (r.ec_goal = gsMean.ec_goal))).countP
      (fun r => r.individual_id.isSome) :=
  count_semantics_amended natParse natParse [csvGood1] esGood1 growthRowsMean gsMean
    (by rw [env_loader_good1]; exact List.mem_singleton.mpr rfl)
    (growthAggregate_growthRowsMean ▸ List.mem_singleton.mpr rfl)

/-- C6: for every school in the registry, rendering its EC target as the
display label (`str(value) + ' EC'`) and re-parsing the text before the
first space as a number, then reverse-searching the registry for that EC
value, recovers exactly the originating school. -/
theorem ec_label_roundtrip (e : String × ℚ × String) (he : e ∈ EC_MAPPING) :
    schoolNameOfLabel (mkEcLabel e.2.1) = some e.1 := by
  have hc : e = ("송도고", (1 : ℚ), "#1f77b4") ∨ e = ("하늘고", (2 : ℚ), "#2ca02c") ∨
      e = ("아라고", (4 : ℚ), "#ff7f0e") ∨ e = ("동산고", (8 : ℚ), "#d62728") := by
    simpa [EC_MAPPING] using he
  rcases hc with h | h | h | h <;> subst h
  · have hp : pyParseFloat (String.mk ((splitChars ' ' (mkEcLabel (1 : ℚ)).data).headD []))
        = some (((1 : ℕ) : ℚ) + ((0 : ℕ) : ℚ) / (10 : ℚ) ^ (1 : ℕ)) := rfl
    have hp2 : pyParseFloat (String.mk ((splitChars ' ' (mkEcLabel (1 : ℚ)).data).headD []))
        = some 1 := by
      rw [hp]
      norm_num
    simp only [schoolNameOfLabel, hp2]
    decide
  · have hp : pyParseFloat (String.mk ((splitChars ' ' (mkEcLabel (2 : ℚ)).data).headD []))
        = some (((2 : ℕ) : ℚ) + ((0 : ℕ) : ℚ) / (10 : ℚ) ^ (1 : ℕ)) := rfl
    have hp2 : pyParseFloat (String.mk ((splitChars ' ' (mkEcLabel (2 : ℚ)).data).headD []))
        = some 2 := by
      rw [hp]
      norm_num
    simp only [schoolNameOfLabel, hp2]
    decide
  · have hp : pyParseFloat (String.mk ((splitChars ' ' (mkEcLabel (4 : ℚ)).data).headD []))
        = some (((4 : ℕ) : ℚ) + ((0 : ℕ) : ℚ) / (10 : ℚ) ^ (1 : ℕ)) := rfl
    have hp2 : pyParseFloat (String.mk ((splitChars ' ' (mkEcLabel (4 : ℚ)).data).headD []))
        = some 4 := by
      rw [hp]
      norm_num
    simp only [schoolNameOfLabel, hp2]
    decide
  · have hp : pyParseFloat (String.mk ((splitChars ' ' (mkEcLabel (8 : ℚ)).data).headD []))
        = some (((8 : ℕ) : ℚ) + ((0 : ℕ) : ℚ) / (10 : ℚ) ^ (1 : ℕ)) := rfl
    have hp2 : pyParseFloat (String.mk ((splitChars ' ' (mkEcLabel (8 : ℚ)).data).headD []))
        = some 8 := by
      rw [hp]
      norm_num
    simp only [schoolNameOfLabel, hp2]
    decide

/-- Witness for the label round trip at the first registry school. -/
theorem ec_label_roundtrip_witness :
    schoolNameOfLabel (mkEcLabel (1 : ℚ)) = some "송도고" :=
  ec_label_roundtrip ("송도고", (1 : ℚ), "#1f77b4") (by decide)

/-- C7 counterexample: both raw-data downloads are fed the unfiltered
frames, so their header rows still contain `ec_goal`, contradicting the
claimed exclusion (only the on-screen tables drop it); moreover the CSV
text of the environment download starts with the character `t` of its
header, not with a byte-order mark. -/
theorem exports_contain_ec_goal_cex :
    "ec_goal" ∈ (csvLines envRowsMean).headD [] ∧
    "ec_goal" ∈ (xlsxLines growthRowsMean).headD [] ∧
    (csvLines envRowsMean).headD [] ≠ dropEcGoal envTableCols ∧
    (xlsxLines growthRowsMean).headD [] ≠ dropEcGoal growthTableCols ∧
    (convert_df_to_csv envRowsMean).data.headD 'x' = 't' := by
  refine ⟨?_, ?_, ?_, ?_, ?_⟩ <;> decide

/-- Appending strings concatenates their character data. -/
theorem strData_append (a b : String) : (a ++ b).data = a.data ++ b.data := by
  cases a
  cases b
  rfl

/-- C7 amended: the environment CSV download and the growth xlsx download
contain every column of the table including `ec_goal` (the download paths
receive the unfiltered frames); only the displayed tables exclude
`ec_goal`; and the CSV text begins with the `t` of its `time` header
column, not with a byte-order mark, since pandas ignores
`encoding='utf-8-sig'` when returning a string. -/
theorem export_columns_amended (edf : List EnvRow) (gdf : List GrowthRow) :
    (csvLines edf).headD [] = envTableCols ∧
    (xlsxLines gdf).headD [] = growthTableCols ∧
    "ec_goal" ∈ envTableCols ∧
    "ec_goal" ∈ growthTableCols ∧
    dropEcGoal envTableCols = ["time", "temperature", "humidity", "ph", "ec", "school"] ∧
    dropEcGoal growthTableCols =
      ["individual_id", "leaf_count", "shoot_length", "root_length", "fresh_weight", "school"] ∧
    (convert_df_to_csv edf).data.headD 'x' = 't' := by
  refine ⟨rfl, rfl, by decide, by decide, by decide, by decide, ?_⟩
  cases edf with
  | nil => decide
  | cons r rs =>
    have hh : joinWith "," envTableCols
        = "time,temperature,humidity,ph,ec,school,ec_goal" := by decide
    have hd : ("time,temperature,humidity,ph,ec,school,ec_goal" : String).data
        = 't' :: ("ime,temperature,humidity,ph,ec,school,ec_goal" : String).data := by decide
    show ((joinWith "," envTableCols ++ "\n") ++ _).data.headD 'x' = 't'
    rw [strData_append, strData_append, hh, hd]
    simp

/-- C8 counterexample: a matched file whose single row has an unparseable
timestamp yields an empty concatenation, yet the loader does not signal
the "no usable environment data" condition, because `if not all_env_data`
sees one (row-less) frame. -/
theorem env_empty_concat_no_signal_cex :
    (load_and_preprocess_env_data natParse natParse envDirAllRowsDropped).envRows = [] ∧
    (load_and_preprocess_env_data natParse natParse envDirAllRowsDropped).noDataSignal = false := by
  refine ⟨?_, ?_⟩ <;> decide

/-- C8 amended: the loader signals "no usable environment data" exactly
when no matched file contributed a frame, not when the concatenation is
empty; frames that exist but hold no rows produce an empty table and
summary without the signal. -/
theorem env_no_data_signal_amended (pt pn : String → Option ℚ) (dir : List CsvFile) :
    ((load_and_preprocess_env_data pt pn dir).noDataSignal = true ↔ envFrames pt pn dir = []) ∧
    ((load_and_preprocess_env_data pt pn dir).envRows = [] ↔
      ∀ fr ∈ envFrames pt pn dir, fr = []) ∧
    ((load_and_preprocess_env_data pt pn dir).noDataSignal = true →
      (load_and_preprocess_env_data pt pn dir).envRows = [] ∧
      (load_and_preprocess_env_data pt pn dir).summary = []) := by
  unfold load_and_preprocess_env_data
  by_cases hem : (envFrames pt pn dir).isEmpty
  · rw [if_pos hem]
    have hnil : envFrames pt pn dir = [] := List.isEmpty_iff.mp hem
    simp [hnil]
  · rw [if_neg hem]
    have hne : ¬ envFrames pt pn dir = [] := fun h => hem (by simp [h])
    simp [hne, List.flatten_eq_nil_iff]

/-- C9: every record of the unified environment and growth tables carries
a registry school together with that school's registry EC target; a
matched file or sheet whose school name is not a registry key contributes
nothing and raises no error. -/
theorem records_registered (pt pn : String → Option ℚ) (dirE : List CsvFile)
    (dirG : List XlsxFile) (r : EnvRow) (gr : GrowthRow) (f : CsvFile) (sh : Sheet)
    (hr : r ∈ (load_and_preprocess_env_data pt pn dirE).envRows)
    (hgr : gr ∈ (load_and_preprocess_growth_data pn dirG).rows)
    (hf : ecGoalOf (envSchoolOf f.name) = none)
    (hsh : ecGoalOf sh.name = none) :
    ecGoalOf r.school = some r.ec_goal ∧
    ecGoalOf gr.school = some gr.ec_goal ∧
    envFileOutcome pt pn f = none ∧
    growthSheetOutcome pn sh = none := by
  refine ⟨(mem_envRows_inv pt pn dirE r hr).1, mem_growthRows_inv pn dirG gr hgr, ?_, ?_⟩
  · unfold envFileOutcome
    by_cases hm : envCsvMatch f = true
    · rw [if_pos hm, hf]
    · rw [if_neg hm]
  · unfold growthSheetOutcome
    rw [hsh]

/-- Witness for the registry invariant at concrete data. -/
theorem records_registered_witness :
    ecGoalOf envRowGood1.school = some envRowGood1.ec_goal ∧
    ecGoalOf growthRowBlank.school = some growthRowBlank.ec_goal ∧
    envFileOutcome natParse natParse csvUnmapped = none ∧
    growthSheetOutcome natParse sheetUnmapped = none :=
  records_registered natParse natParse [csvGood1] growthDirBlankId envRowGood1 growthRowBlank
    csvUnmapped sheetUnmapped
    (by rw [env_loader_good1]; exact List.mem_singleton.mpr rfl)
    (by decide) (by decide) (by decide)

/-- C10: a matched CSV whose parsed frame does not have exactly five
columns makes the positional renaming raise; the error is reported via
the per-file path naming the file, that file contributes no rows, and the
other files still load. -/
theorem bad_column_count_skipped (pt pn : String → Option ℚ) (f : CsvFile)
    (raw : RawFrame String) (g : ℚ) (d1 d2 : List CsvFile)
    (hm : envCsvMatch f = true) (hg : ecGoalOf (envSchoolOf f.name) = some g)
    (hc : f.content = .ok raw) (hn : raw.ncols ≠ 5) :
    envFileOutcome pt pn f =
      some (.error ("환경 데이터 파일 로드 오류 (" ++ f.name ++ "): " ++ "Length mismatch")) ∧
    envFrames pt pn (d1 ++ f :: d2) = envFrames pt pn d1 ++ envFrames pt pn d2 ∧
    ("환경 데이터 파일 로드 오류 (" ++ f.name ++ "): " ++ "Length mismatch")
      ∈ envErrors pt pn (d1 ++ f :: d2) := by
  have hout : envFileOutcome pt pn f =
      some (.error ("환경 데이터 파일 로드 오류 (" ++ f.name ++ "): " ++ "Length mismatch")) := by
    unfold envFileOutcome
    rw [if_pos hm, hg]
    dsimp only
    rw [hc]
    have hpe : processEnvFrame pt pn (envSchoolOf f.name) g raw = .error "Length mismatch" := by
      simp [processEnvFrame, setColumns5, hn]
    simp [Except.mapError, Except.bind, bind, hpe]
  refine ⟨hout, ?_, ?_⟩
  · simp only [envFrames, envOutcomes, List.filterMap_append, List.filterMap_cons, hout]
    simp [Except.toOption]
  · simp only [envErrors, envOutcomes, List.filterMap_append, List.filterMap_cons, hout]
    simp

/-- Witness for the column-count claim at a concrete four-column file
between two loadable files. -/
theorem bad_column_count_skipped_witness :
    envFileOutcome natParse natParse csvBadCols =
      some (.error ("환경 데이터 파일 로드 오류 (" ++ csvBadCols.name ++ "): " ++ "Length mismatch")) ∧
    envFrames natParse natParse ([csvGood1] ++ csvBadCols :: [csvGood2]) =
      envFrames natParse natParse [csvGood1] ++ envFrames natParse natParse [csvGood2] ∧
    ("환경 데이터 파일 로드 오류 (" ++ csvBadCols.name ++ "): " ++ "Length mismatch")
      ∈ envErrors natParse natParse ([csvGood1] ++ csvBadCols :: [csvGood2]) :=
  bad_column_count_skipped natParse natParse csvBadCols ⟨4, [["1", "2", "3", "4"]]⟩ 2
    [csvGood1] [csvGood2] (by decide) (by decide) (by decide) (by decide)
